import Mathlib

/-!
Verification of the rCore system-call dispatcher
(`src/kernel/src/syscall/mod.rs`).

The dispatcher `syscall(id, args, tf)` selects a route by exact match on
`id`, invokes at most one subsystem handler or inline stub, and converts the
produced `Result<isize, SysError>` into a single signed integer
(`Ok(code) → code`, `Err(err) → -(err as isize)`).  Three arms diverge in the
source: `sys_exit` (ids 60 and 231) never returns, and the default arm calls
the terminal fault reporter `crate::trap::error(tf)`.

The subsystem handlers (`sys_read`, `sys_open`, …) live in submodules outside
the dispatcher file; they are modelled as an abstract environment of functions
returning `SysResult`, exactly matching the call signatures at each call site.
The trap frame is an opaque type parameter `TF`: the dispatcher hands a
mutable borrow only to `sys_fork`, `sys_exec` and `sys_arch_prctl`, which is
modelled by those three handler fields being the only ones of type
`… → TF → SysResult × TF`.
-/

namespace RCoreSyscall

/-- Rust `usize as isize` on a 64-bit target (two's-complement reinterpretation).
Used at `args[0] as isize` (ids 60/231) and `thread::current().id() as isize`
(id 218). -/
def usizeToIsize (n : Nat) : Int :=
  if n % 2 ^ 64 < 2 ^ 63 then ((n % 2 ^ 64 : Nat) : Int)
  else ((n % 2 ^ 64 : Nat) : Int) - 2 ^ 64

/-- Rust `usize as i64` on a 64-bit target; used at `args[1] as i64` (id 8). -/
def usizeToI64 (n : Nat) : Int := usizeToIsize n

/-- Rust `usize as u8`; used at `args[2] as u8` (id 8). -/
def usizeToU8 (n : Nat) : Nat := n % 2 ^ 8

/-- Rust `usize as i32`; used at `args[4] as i32` (id 9) and
`args[0] as i32` (id 158). -/
def usizeToI32 (n : Nat) : Int :=
  if n % 2 ^ 32 < 2 ^ 31 then ((n % 2 ^ 32 : Nat) : Int)
  else ((n % 2 ^ 32 : Nat) : Int) - 2 ^ 32

/-- The `SysError` enum of `syscall/mod.rs` (repr(isize), ucore-compatible
error identities). -/
inductive SysError where
  | Inval
  | Nomem
  | Noent
  | Isdir
  | Notdir
  | Xdev
  | Unimp
  | Exists
  | Notempty
  | Io
  | Unspcified
deriving DecidableEq, Repr, Fintype

/-- The fixed numeric identity of each `SysError` variant: the explicit
`repr(isize)` discriminants written in the source. `err as isize` in Rust
yields exactly this value. -/
def sysErrorCode : SysError → Int
  | .Inval => 3
  | .Nomem => 4
  | .Noent => 16
  | .Isdir => 17
  | .Notdir => 18
  | .Xdev => 19
  | .Unimp => 20
  | .Exists => 23
  | .Notempty => 24
  | .Io => 5
  | .Unspcified => 1

/-- `pub type SysResult = Result<isize, SysError>`. -/
abbrev SysResult := Except SysError Int

/-- The six raw machine-word arguments `args: [usize; 6]`. -/
structure SyscallArgs where
  a0 : Nat
  a1 : Nat
  a2 : Nat
  a3 : Nat
  a4 : Nat
  a5 : Nat
deriving DecidableEq, Repr

/-- What one dispatch arm produces before the outer Result→integer
conversion: a `SysResult` together with the (possibly mutated) trap frame,
or one of the two diverging routes (`sys_exit`, `crate::trap::error`). -/
inductive DispatchOut (TF : Type) where
  | result (r : SysResult) (tf : TF)
  | exited (status : Int)
  | faulted (tf : TF)

/-- One dispatch: the arm's output plus the list of collaborator invocations
the arm performs (one entry per handler call, inline stub, or fault-reporter
call in the source text of that arm). -/
structure Dispatched (TF : Type) where
  out : DispatchOut TF
  calls : List String

/-- The observable outcome of one `syscall` call: a returned signed integer
(with the final trap frame), thread termination via `sys_exit`, or the
terminal fault path `crate::trap::error(tf)`. -/
inductive Outcome (TF : Type) where
  | ret (v : Int) (tf : TF)
  | exit (status : Int)
  | fault (tf : TF)
deriving DecidableEq

/-- Value returned through the normal conversion channel, if any. -/
def Outcome.retVal {TF : Type} : Outcome TF → Option Int
  | .ret v _ => some v
  | .exit _ => none
  | .fault _ => none

/-- The abstract environment of external collaborators: one field per
subsystem handler, typed exactly as the dispatcher's call sites use them
(`tf`-mutating handlers take and return a `TF`), plus the current thread
identifier consulted by arm 218 (`thread::current().id()`). -/
structure SyscallEnv (TF : Type) where
  sys_read : Nat → Nat → Nat → SysResult
  sys_write : Nat → Nat → Nat → SysResult
  sys_open : Nat → Nat → Nat → SysResult
  sys_close : Nat → SysResult
  sys_stat : Nat → Nat → SysResult
  sys_fstat : Nat → Nat → SysResult
  sys_lseek : Nat → Int → Nat → SysResult
  sys_mmap : Nat → Nat → Nat → Nat → Int → Nat → SysResult
  sys_munmap : Nat → Nat → SysResult
  sys_readv : Nat → Nat → Nat → SysResult
  sys_writev : Nat → Nat → Nat → SysResult
  sys_yield : SysResult
  sys_dup2 : Nat → Nat → SysResult
  sys_sleep : Nat → SysResult
  sys_getpid : SysResult
  sys_socket : Nat → Nat → Nat → SysResult
  sys_fork : TF → SysResult × TF
  sys_exec : Nat → Nat → Nat → TF → SysResult × TF
  sys_wait : Nat → Nat → SysResult
  sys_kill : Nat → SysResult
  sys_getdirentry : Nat → Nat → SysResult
  sys_get_time : SysResult
  sys_set_priority : Nat → SysResult
  sys_arch_prctl : Int → Nat → TF → SysResult × TF
  current_thread_id : Nat

/-- The dispatch match of `syscall` (lines 32–138 of the source), arm by arm.
Pointer-typed arguments are carried as their raw addresses (the dispatcher
only reinterprets, never dereferences).  `sys_exit` diverges in the source
(`-> !`), so ids 60 and 231 produce `.exited` directly; the default arm calls
`crate::trap::error(tf)`, producing `.faulted`. -/
def dispatchStep {TF : Type} (env : SyscallEnv TF) (id : Nat)
    (args : SyscallArgs) (tf : TF) : Dispatched TF :=
  match id with
  | 0 => ⟨.result (env.sys_read args.a0 args.a1 args.a2) tf, ["sys_read"]⟩
  | 1 => ⟨.result (env.sys_write args.a0 args.a1 args.a2) tf, ["sys_write"]⟩
  | 2 => ⟨.result (env.sys_open args.a0 args.a1 args.a2) tf, ["sys_open"]⟩
  | 3 => ⟨.result (env.sys_close args.a0) tf, ["sys_close"]⟩
  | 4 => ⟨.result (env.sys_stat args.a0 args.a1) tf, ["sys_stat"]⟩
  | 5 => ⟨.result (env.sys_fstat args.a0 args.a1) tf, ["sys_fstat"]⟩
  | 8 => ⟨.result (env.sys_lseek args.a0 (usizeToI64 args.a1) (usizeToU8 args.a2)) tf, ["sys_lseek"]⟩
  | 9 => ⟨.result (env.sys_mmap args.a0 args.a1 args.a2 args.a3 (usizeToI32 args.a4) args.a5) tf, ["sys_mmap"]⟩
  | 11 => ⟨.result (env.sys_munmap args.a0 args.a1) tf, ["sys_munmap"]⟩
  | 19 => ⟨.result (env.sys_readv args.a0 args.a1 args.a2) tf, ["sys_readv"]⟩
  | 20 => ⟨.result (env.sys_writev args.a0 args.a1 args.a2) tf, ["sys_writev"]⟩
  | 24 => ⟨.result env.sys_yield tf, ["sys_yield"]⟩
  | 33 => ⟨.result (env.sys_dup2 args.a0 args.a1) tf, ["sys_dup2"]⟩
  | 35 => ⟨.result (env.sys_sleep args.a0) tf, ["sys_sleep"]⟩
  | 39 => ⟨.result env.sys_getpid tf, ["sys_getpid"]⟩
  | 41 => ⟨.result (env.sys_socket args.a0 args.a1 args.a2) tf, ["sys_socket"]⟩
  | 57 =>
    let p := env.sys_fork tf
    ⟨.result p.1 p.2, ["sys_fork"]⟩
  | 59 =>
    let p := env.sys_exec args.a0 args.a1 args.a2 tf
    ⟨.result p.1 p.2, ["sys_exec"]⟩
  | 60 => ⟨.exited (usizeToIsize args.a0), ["sys_exit"]⟩
  | 61 => ⟨.result (env.sys_wait args.a0 args.a1) tf, ["sys_wait"]⟩
  | 62 => ⟨.result (env.sys_kill args.a0) tf, ["sys_kill"]⟩
  | 78 => ⟨.result (env.sys_getdirentry args.a0 args.a1) tf, ["sys_getdirentry"]⟩
  | 96 => ⟨.result env.sys_get_time tf, ["sys_get_time"]⟩
  | 141 => ⟨.result (env.sys_set_priority args.a0) tf, ["sys_set_priority"]⟩
  | 12 => ⟨.result (.ok 0) tf, ["stub"]⟩
  | 13 => ⟨.result (.ok 0) tf, ["stub"]⟩
  | 14 => ⟨.result (.ok 0) tf, ["stub"]⟩
  | 16 => ⟨.result (.ok 0) tf, ["stub"]⟩
  | 102 => ⟨.result (.ok 0) tf, ["stub"]⟩
  | 107 => ⟨.result (.ok 0) tf, ["stub"]⟩
  | 108 => ⟨.result (.ok 0) tf, ["stub"]⟩
  | 131 => ⟨.result (.ok 0) tf, ["stub"]⟩
  | 158 =>
    let p := env.sys_arch_prctl (usizeToI32 args.a0) args.a1 tf
    ⟨.result p.1 p.2, ["sys_arch_prctl"]⟩
  | 218 => ⟨.result (.ok (usizeToIsize env.current_thread_id)) tf, ["stub"]⟩
  | 231 => ⟨.exited (usizeToIsize args.a0), ["sys_exit"]⟩
  | _ => ⟨.faulted tf, ["trap_error"]⟩

/-- The final Result→integer conversion (lines 139–142 of the source):
`Ok(code) => code`, `Err(err) => -(err as isize)`. -/
def convertResult {TF : Type} (r : SysResult) (tf : TF) : Outcome TF :=
  match r with
  | .ok code => .ret code tf
  | .error err => .ret (-(sysErrorCode err)) tf

/-- `pub fn syscall(id, args, tf) -> isize`: dispatch, then convert.  The two
diverging routes never reach the conversion. -/
def syscall {TF : Type} (env : SyscallEnv TF) (id : Nat)
    (args : SyscallArgs) (tf : TF) : Outcome TF :=
  match (dispatchStep env id args tf).out with
  | .result r tf' => convertResult r tf'
  | .exited s => .exit s
  | .faulted tf' => .fault tf'

/-- The collaborator invocations one `syscall` call performs. -/
def syscallCalls {TF : Type} (env : SyscallEnv TF) (id : Nat)
    (args : SyscallArgs) (tf : TF) : List String :=
  (dispatchStep env id args tf).calls

/-- Ids matched to a real subsystem handler in the dispatch table. -/
def realHandlerIds : List Nat :=
  [0, 1, 2, 3, 4, 5, 8, 9, 11, 19, 20, 24, 33, 35, 39, 41, 57, 59, 60, 61,
   62, 78, 96, 141, 158]

/-- Ids matched to an inline "unimplemented" stub arm (including the partial
set-tid-address stub 218 and the exit-group delegation 231). -/
def stubIds : List Nat := [12, 13, 14, 16, 102, 107, 108, 131, 218, 231]

/-- All ids with an explicit arm in the dispatch match. -/
def mappedIds : List Nat := realHandlerIds ++ stubIds

/-- A concrete environment over `TF := Nat` in which every handler reports
success 0 and the current thread has identifier 1; used to evaluate the
dispatcher at concrete inputs. -/
def defaultEnv : SyscallEnv Nat where
  sys_read := fun _ _ _ => .ok 0
  sys_write := fun _ _ _ => .ok 0
  sys_open := fun _ _ _ => .ok 0
  sys_close := fun _ => .ok 0
  sys_stat := fun _ _ => .ok 0
  sys_fstat := fun _ _ => .ok 0
  sys_lseek := fun _ _ _ => .ok 0
  sys_mmap := fun _ _ _ _ _ _ => .ok 0
  sys_munmap := fun _ _ => .ok 0
  sys_readv := fun _ _ _ => .ok 0
  sys_writev := fun _ _ _ => .ok 0
  sys_yield := .ok 0
  sys_dup2 := fun _ _ => .ok 0
  sys_sleep := fun _ => .ok 0
  sys_getpid := .ok 0
  sys_socket := fun _ _ _ => .ok 0
  sys_fork := fun tf => (.ok 0, tf)
  sys_exec := fun _ _ _ tf => (.ok 0, tf)
  sys_wait := fun _ _ => .ok 0
  sys_kill := fun _ => .ok 0
  sys_getdirentry := fun _ _ => .ok 0
  sys_get_time := .ok 0
  sys_set_priority := fun _ => .ok 0
  sys_arch_prctl := fun _ _ tf => (.ok 0, tf)
  current_thread_id := 1

/-- The all-zero argument vector. -/
def zeroArgs : SyscallArgs := ⟨0, 0, 0, 0, 0, 0⟩

end RCoreSyscall

namespace RCoreSyscall

/-! ### Helper lemmas shared by the claim theorems -/

/-- Any id without an explicit arm falls to the default arm, which calls
`crate::trap::error(tf)` and nothing else. -/
theorem dispatchStep_unmapped {TF : Type} (env : SyscallEnv TF)
    (args : SyscallArgs) (tf : TF) (id : Nat) (h : id ∉ mappedIds) :
    dispatchStep env id args tf = ⟨.faulted tf, ["trap_error"]⟩ := by
  unfold dispatchStep
  split
  all_goals first
    | rfl
    | exact absurd (by decide) h

/-- On an unmapped id, `syscall` produces the fault outcome. -/
theorem syscall_unmapped {TF : Type} (env : SyscallEnv TF)
    (args : SyscallArgs) (tf : TF) (id : Nat) (h : id ∉ mappedIds) :
    syscall env id args tf = .fault tf := by
  unfold syscall
  rw [dispatchStep_unmapped env args tf id h]

/-- Every mapped id produces either a `SysResult` (heading for the conversion)
or thread termination. -/
theorem dispatchStep_mapped_shape {TF : Type} (env : SyscallEnv TF)
    (args : SyscallArgs) (tf : TF) (id : Nat) (h : id ∈ mappedIds) :
    (∃ r tf', (dispatchStep env id args tf).out = .result r tf')
      ∨ (∃ s, (dispatchStep env id args tf).out = .exited s) := by
  fin_cases h
  all_goals first
    | exact Or.inl ⟨_, _, rfl⟩
    | exact Or.inr ⟨_, rfl⟩

/-- On a mapped id, `syscall` returns a single signed integer or terminates
the thread; it never reaches the fault path. -/
theorem syscall_mapped_ret_or_exit {TF : Type} (env : SyscallEnv TF)
    (args : SyscallArgs) (tf : TF) (id : Nat) (h : id ∈ mappedIds) :
    (∃ v : Int, ∃ tf' : TF, syscall env id args tf = .ret v tf')
      ∨ (∃ s : Int, syscall env id args tf = .exit s) := by
  rcases dispatchStep_mapped_shape env args tf id h with ⟨r, tf', hr⟩ | ⟨s, hs⟩
  · left
    cases r with
    | ok v => exact ⟨v, tf', by unfold syscall; rw [hr]; rfl⟩
    | error k => exact ⟨-(sysErrorCode k), tf', by unfold syscall; rw [hr]; rfl⟩
  · right
    exact ⟨s, by unfold syscall; rw [hs]⟩

/-- Every arm of the dispatch match performs exactly one collaborator
invocation (a handler call, an inline stub, or the fault reporter). -/
theorem syscallCalls_length_one {TF : Type} (env : SyscallEnv TF)
    (args : SyscallArgs) (tf : TF) (id : Nat) :
    (syscallCalls env id args tf).length = 1 := by
  unfold syscallCalls dispatchStep
  split
  all_goals rfl

/-- No id is both a real-handler id and a stub id. -/
theorem realHandlerIds_stubIds_disjoint :
    ∀ i, i ∈ realHandlerIds → i ∉ stubIds := by
  decide


/-! ### Claim theorems -/

/-- C1: whenever the selected route produces a `Result`, the returned integer
is computed by the single outermost conversion: `Success(v) → v` and
`Failure(kind) → -(numeric identity of kind)`, strictly negative for every
defined kind, with the fixed identity table Inval=3, Nomem=4, Io=5, Noent=16,
Isdir=17, Notdir=18, Xdev=19, Unimp=20, Exists=23, Notempty=24,
Unspcified=1. -/
theorem syscall_conversion_outermost {TF : Type} (env : SyscallEnv TF)
    (id : Nat) (args : SyscallArgs) (tf : TF) (r : SysResult) (tf' : TF)
    (h : (dispatchStep env id args tf).out = .result r tf') :
    syscall env id args tf = convertResult r tf'
      ∧ (∀ v : Int, convertResult (Except.ok v) tf' = .ret v tf')
      ∧ (∀ k : SysError,
          convertResult (Except.error k) tf' = .ret (-(sysErrorCode k)) tf')
      ∧ (∀ k : SysError, -(sysErrorCode k) < 0)
      ∧ sysErrorCode .Inval = 3 ∧ sysErrorCode .Nomem = 4
      ∧ sysErrorCode .Io = 5 ∧ sysErrorCode .Noent = 16
      ∧ sysErrorCode .Isdir = 17 ∧ sysErrorCode .Notdir = 18
      ∧ sysErrorCode .Xdev = 19 ∧ sysErrorCode .Unimp = 20
      ∧ sysErrorCode .Exists = 23 ∧ sysErrorCode .Notempty = 24
      ∧ sysErrorCode .Unspcified = 1 := by
  refine ⟨?_, fun v => rfl, fun k => rfl, by decide,
    rfl, rfl, rfl, rfl, rfl, rfl, rfl, rfl, rfl, rfl, rfl⟩
  unfold syscall
  rw [h]

/-- Witness for C1 at id 24 (yield) in the all-success environment. -/
theorem syscall_conversion_outermost_witness :
    syscall defaultEnv 24 zeroArgs 0 = convertResult (Except.ok 0) 0 :=
  (syscall_conversion_outermost defaultEnv 24 zeroArgs 0 (Except.ok 0) 0 rfl).1

/-- C2: every id of the operation-id table routes to exactly the listed
handler with the prescribed argument reinterpretation; the stub ids route to
their inline stub arms, with no id renumbered or remapped. -/
theorem syscall_routing_table {TF : Type} (env : SyscallEnv TF)
    (args : SyscallArgs) (tf : TF) :
    syscall env 0 args tf = convertResult (env.sys_read args.a0 args.a1 args.a2) tf
  ∧ syscall env 1 args tf = convertResult (env.sys_write args.a0 args.a1 args.a2) tf
  ∧ syscall env 2 args tf = convertResult (env.sys_open args.a0 args.a1 args.a2) tf
  ∧ syscall env 3 args tf = convertResult (env.sys_close args.a0) tf
  ∧ syscall env 4 args tf = convertResult (env.sys_stat args.a0 args.a1) tf
  ∧ syscall env 5 args tf = convertResult (env.sys_fstat args.a0 args.a1) tf
  ∧ syscall env 8 args tf
      = convertResult (env.sys_lseek args.a0 (usizeToI64 args.a1) (usizeToU8 args.a2)) tf
  ∧ syscall env 9 args tf
      = convertResult (env.sys_mmap args.a0 args.a1 args.a2 args.a3 (usizeToI32 args.a4) args.a5) tf
  ∧ syscall env 11 args tf = convertResult (env.sys_munmap args.a0 args.a1) tf
  ∧ syscall env 19 args tf = convertResult (env.sys_readv args.a0 args.a1 args.a2) tf
  ∧ syscall env 20 args tf = convertResult (env.sys_writev args.a0 args.a1 args.a2) tf
  ∧ syscall env 24 args tf = convertResult env.sys_yield tf
  ∧ syscall env 33 args tf = convertResult (env.sys_dup2 args.a0 args.a1) tf
  ∧ syscall env 35 args tf = convertResult (env.sys_sleep args.a0) tf
  ∧ syscall env 39 args tf = convertResult env.sys_getpid tf
  ∧ syscall env 41 args tf = convertResult (env.sys_socket args.a0 args.a1 args.a2) tf
  ∧ syscall env 57 args tf = convertResult (env.sys_fork tf).1 (env.sys_fork tf).2
  ∧ syscall env 59 args tf
      = convertResult (env.sys_exec args.a0 args.a1 args.a2 tf).1
          (env.sys_exec args.a0 args.a1 args.a2 tf).2
  ∧ syscall env 60 args tf = .exit (usizeToIsize args.a0)
  ∧ syscall env 61 args tf = convertResult (env.sys_wait args.a0 args.a1) tf
  ∧ syscall env 62 args tf = convertResult (env.sys_kill args.a0) tf
  ∧ syscall env 78 args tf = convertResult (env.sys_getdirentry args.a0 args.a1) tf
  ∧ syscall env 96 args tf = convertResult env.sys_get_time tf
  ∧ syscall env 141 args tf = convertResult (env.sys_set_priority args.a0) tf
  ∧ syscall env 158 args tf
      = convertResult (env.sys_arch_prctl (usizeToI32 args.a0) args.a1 tf).1
          (env.sys_arch_prctl (usizeToI32 args.a0) args.a1 tf).2
  ∧ syscall env 12 args tf = .ret 0 tf
  ∧ syscall env 13 args tf = .ret 0 tf
  ∧ syscall env 14 args tf = .ret 0 tf
  ∧ syscall env 16 args tf = .ret 0 tf
  ∧ syscall env 102 args tf = .ret 0 tf
  ∧ syscall env 107 args tf = .ret 0 tf
  ∧ syscall env 108 args tf = .ret 0 tf
  ∧ syscall env 131 args tf = .ret 0 tf
  ∧ syscall env 218 args tf = .ret (usizeToIsize env.current_thread_id) tf
  ∧ syscall env 231 args tf = .exit (usizeToIsize args.a0) :=
  ⟨rfl, rfl, rfl, rfl, rfl, rfl, rfl, rfl, rfl, rfl, rfl, rfl, rfl, rfl, rfl,
   rfl, rfl, rfl, rfl, rfl, rfl, rfl, rfl, rfl, rfl, rfl, rfl, rfl, rfl, rfl,
   rfl, rfl, rfl, rfl, rfl⟩

/-- Witness for C2: the read route evaluated in a concrete environment. -/
theorem syscall_routing_table_witness :
    syscall defaultEnv 0 zeroArgs 0 = convertResult (defaultEnv.sys_read 0 0 0) 0 :=
  (syscall_routing_table defaultEnv zeroArgs 0).1

/-- C3: every id without a table entry — reserved/disabled ids and ids never
defined alike — takes the default arm, which invokes the terminal fault
reporter exactly once with the register state and never returns a value
through the normal conversion channel. -/
theorem syscall_unmapped_faults {TF : Type} (env : SyscallEnv TF)
    (args : SyscallArgs) (tf : TF) (id : Nat) (h : id ∉ mappedIds) :
    syscall env id args tf = .fault tf
      ∧ syscallCalls env id args tf = ["trap_error"]
      ∧ ∀ (v : Int) (tf' : TF), syscall env id args tf ≠ .ret v tf' := by
  have h1 : syscall env id args tf = .fault tf := syscall_unmapped env args tf id h
  have h2 : syscallCalls env id args tf = ["trap_error"] := by
    unfold syscallCalls
    rw [dispatchStep_unmapped env args tf id h]
  refine ⟨h1, h2, fun v tf' hc => ?_⟩
  rw [h1] at hc
  exact Outcome.noConfusion hc

/-- Witness for C3 at the never-defined id 9999 and the reserved ids 7
and 293. -/
theorem syscall_unmapped_faults_witness :
    syscall defaultEnv 9999 zeroArgs 0 = .fault 0
      ∧ syscall defaultEnv 7 zeroArgs 0 = .fault 0
      ∧ syscallCalls defaultEnv 293 zeroArgs 0 = ["trap_error"] :=
  ⟨(syscall_unmapped_faults defaultEnv zeroArgs 0 9999 (by decide)).1,
   (syscall_unmapped_faults defaultEnv zeroArgs 0 7 (by decide)).1,
   (syscall_unmapped_faults defaultEnv zeroArgs 0 293 (by decide)).2.1⟩

/-- C4: the exit-group route (231) delegates to exactly the exit operation
with the same status: for every status and argument vector it is
observationally equal to route 60, terminating the calling thread, and it
cannot fall through to a stub, fault, or normal-return branch. -/
theorem syscall_exit_group_delegates {TF : Type} (env : SyscallEnv TF)
    (args : SyscallArgs) (tf : TF) :
    syscall env 231 args tf = syscall env 60 args tf
      ∧ syscall env 231 args tf = .exit (usizeToIsize args.a0)
      ∧ syscallCalls env 231 args tf = ["sys_exit"]
      ∧ (∀ tf' : TF, syscall env 231 args tf ≠ .fault tf')
      ∧ (∀ (v : Int) (tf' : TF), syscall env 231 args tf ≠ .ret v tf') :=
  ⟨rfl, rfl, rfl, fun _ hc => Outcome.noConfusion hc,
   fun _ _ hc => Outcome.noConfusion hc⟩

/-- Witness for C4: exit-group with status 42 equals exit with status 42. -/
theorem syscall_exit_group_delegates_witness :
    syscall defaultEnv 231 ⟨42, 0, 0, 0, 0, 0⟩ 0
      = syscall defaultEnv 60 ⟨42, 0, 0, 0, 0, 0⟩ 0 :=
  (syscall_exit_group_delegates defaultEnv ⟨42, 0, 0, 0, 0, 0⟩ 0).1

/-- C5: every stub id other than the thread-identity probe (12, 13, 14, 16,
102, 107, 108, 131) returns exactly 0 for every six-word argument vector,
never an error. -/
theorem syscall_stub_returns_zero {TF : Type} (env : SyscallEnv TF)
    (args : SyscallArgs) (tf : TF) :
    syscall env 12 args tf = .ret 0 tf
      ∧ syscall env 13 args tf = .ret 0 tf
      ∧ syscall env 14 args tf = .ret 0 tf
      ∧ syscall env 16 args tf = .ret 0 tf
      ∧ syscall env 102 args tf = .ret 0 tf
      ∧ syscall env 107 args tf = .ret 0 tf
      ∧ syscall env 108 args tf = .ret 0 tf
      ∧ syscall env 131 args tf = .ret 0 tf :=
  ⟨rfl, rfl, rfl, rfl, rfl, rfl, rfl, rfl⟩

/-- Witness for C5: the brk stub with arbitrary nonzero arguments. -/
theorem syscall_stub_returns_zero_witness :
    syscall defaultEnv 12 ⟨5, 6, 7, 8, 9, 10⟩ 3 = .ret 0 3 :=
  (syscall_stub_returns_zero defaultEnv ⟨5, 6, 7, 8, 9, 10⟩ 3).1


/-- C6: the set-tid-address stub (218) returns the calling thread's
identifier for every argument vector, and that value is positive and stable
across repeated probes from the same thread.  Positivity and stability of
`thread::current().id()` itself are modelled from the spec (the thread
module is an external collaborator): the identifier is assumed a positive
integer below 2^63 fixed for the thread's lifetime, which the environment
captures as the constant field `current_thread_id`. -/
theorem syscall_set_tid_address_returns_tid {TF : Type} (env : SyscallEnv TF)
    (args args2 : SyscallArgs) (tf tf2 : TF)
    (hpos : 0 < env.current_thread_id)
    (hsmall : env.current_thread_id < 2 ^ 63) :
    syscall env 218 args tf = .ret (usizeToIsize env.current_thread_id) tf
      ∧ 0 < usizeToIsize env.current_thread_id
      ∧ (syscall env 218 args tf).retVal = (syscall env 218 args2 tf2).retVal := by
  refine ⟨rfl, ?_, rfl⟩
  unfold usizeToIsize
  rw [Nat.mod_eq_of_lt (lt_trans hsmall (by norm_num))]
  rw [if_pos hsmall]
  exact_mod_cast hpos

/-- Witness for C6 in the environment whose current thread has id 1:
the probe returns the id, it is positive, and two probes with different
arguments and frames agree. -/
theorem syscall_set_tid_address_returns_tid_witness :
    syscall defaultEnv 218 zeroArgs 0
        = .ret (usizeToIsize defaultEnv.current_thread_id) 0
      ∧ 0 < usizeToIsize defaultEnv.current_thread_id
      ∧ (syscall defaultEnv 218 zeroArgs 0).retVal
        = (syscall defaultEnv 218 ⟨9, 9, 9, 9, 9, 9⟩ 5).retVal :=
  syscall_set_tid_address_returns_tid defaultEnv zeroArgs ⟨9, 9, 9, 9, 9, 9⟩ 0 5
    (by decide) (by decide)

/-- C7: among mapped ids, only fork (57), exec (59) and arch-prctl (158)
receive the trap frame; every other mapped route neither reads nor writes
it: the arm's `SysResult` (or exit status) is the same for every frame, and
the frame is passed through unchanged. -/
theorem syscall_tf_only_fork_exec_arch {TF : Type} (env : SyscallEnv TF)
    (args : SyscallArgs) (id : Nat) (hmem : id ∈ mappedIds)
    (hno : ¬(id = 57 ∨ id = 59 ∨ id = 158)) :
    ((∃ r : SysResult, ∀ t : TF, (dispatchStep env id args t).out = .result r t)
      ∨ (∃ s : Int, ∀ t : TF, (dispatchStep env id args t).out = .exited s))
      ∧ (∀ t : TF, (dispatchStep env 57 args t).out
          = .result (env.sys_fork t).1 (env.sys_fork t).2)
      ∧ (∀ t : TF, (dispatchStep env 59 args t).out
          = .result (env.sys_exec args.a0 args.a1 args.a2 t).1
              (env.sys_exec args.a0 args.a1 args.a2 t).2)
      ∧ (∀ t : TF, (dispatchStep env 158 args t).out
          = .result (env.sys_arch_prctl (usizeToI32 args.a0) args.a1 t).1
              (env.sys_arch_prctl (usizeToI32 args.a0) args.a1 t).2) := by
  refine ⟨?_, fun t => rfl, fun t => rfl, fun t => rfl⟩
  fin_cases hmem
  all_goals first
    | exact absurd (by decide) hno
    | exact Or.inl ⟨_, fun t => rfl⟩
    | exact Or.inr ⟨_, fun t => rfl⟩

/-- Witness for C7 at id 24 (yield) over the concrete frame type `Nat`. -/
theorem syscall_tf_only_fork_exec_arch_witness :
    (∃ r : SysResult, ∀ t : Nat, (dispatchStep defaultEnv 24 zeroArgs t).out = .result r t)
      ∨ (∃ s : Int, ∀ t : Nat, (dispatchStep defaultEnv 24 zeroArgs t).out = .exited s) :=
  (syscall_tf_only_fork_exec_arch defaultEnv zeroArgs 24 (by decide) (by decide)).1

/-- C8: route selection is total over the id domain: every id is mapped
(real handler or stub, the two are disjoint) or unmapped; every call
performs exactly one collaborator invocation; a mapped route returns a
single signed integer (or terminates the thread), and an unmapped route
goes to the fault path. -/
theorem syscall_total_dispatch {TF : Type} (env : SyscallEnv TF)
    (args : SyscallArgs) (tf : TF) (id : Nat) :
    (id ∈ mappedIds ∨ id ∉ mappedIds)
      ∧ (∀ i, i ∈ realHandlerIds → i ∉ stubIds)
      ∧ (id ∈ mappedIds ↔ id ∈ realHandlerIds ∨ id ∈ stubIds)
      ∧ (syscallCalls env id args tf).length = 1
      ∧ (id ∈ mappedIds →
          (∃ v : Int, ∃ tf' : TF, syscall env id args tf = .ret v tf')
            ∨ (∃ s : Int, syscall env id args tf = .exit s))
      ∧ (id ∉ mappedIds → syscall env id args tf = .fault tf) :=
  ⟨Decidable.em _,
   realHandlerIds_stubIds_disjoint,
   by simp [mappedIds, List.mem_append],
   syscallCalls_length_one env args tf id,
   fun h => syscall_mapped_ret_or_exit env args tf id h,
   fun h => syscall_unmapped env args tf id h⟩

/-- Witness for C8: one invocation on the yield route, a single returned
integer there, and the fault outcome at the unmapped id 9999. -/
theorem syscall_total_dispatch_witness :
    (syscallCalls defaultEnv 24 zeroArgs 0).length = 1
      ∧ ((∃ v : Int, ∃ tf' : Nat, syscall defaultEnv 24 zeroArgs 0 = .ret v tf')
          ∨ (∃ s : Int, syscall defaultEnv 24 zeroArgs 0 = .exit s))
      ∧ syscall defaultEnv 9999 zeroArgs 0 = .fault 0 :=
  ⟨(syscall_total_dispatch defaultEnv zeroArgs 0 24).2.2.2.1,
   (syscall_total_dispatch defaultEnv zeroArgs 0 24).2.2.2.2.1 (by decide),
   (syscall_total_dispatch defaultEnv zeroArgs 0 9999).2.2.2.2.2 (by decide)⟩

/-- C9: when the open handler fails with no-such-entry, `syscall(2, args)`
returns the negated identity of that kind, i.e. -16. -/
theorem syscall_open_noent {TF : Type} (env : SyscallEnv TF)
    (args : SyscallArgs) (tf : TF)
    (h : env.sys_open args.a0 args.a1 args.a2 = .error .Noent) :
    syscall env 2 args tf = .ret (-16) tf
      ∧ syscall env 2 args tf = .ret (-(sysErrorCode .Noent)) tf
      ∧ sysErrorCode .Noent = 16 ∧ (-16 : Int) < 0 := by
  have h1 : syscall env 2 args tf
      = convertResult (env.sys_open args.a0 args.a1 args.a2) tf := rfl
  rw [h] at h1
  exact ⟨h1, h1, rfl, by decide⟩

/-- The all-success environment with the open handler failing with Noent. -/
def noentEnv : SyscallEnv Nat :=
  { defaultEnv with sys_open := fun _ _ _ => .error .Noent }

/-- Witness for C9: a concrete open call against a non-resolving path
returns -16. -/
theorem syscall_open_noent_witness :
    syscall noentEnv 2 zeroArgs 0 = .ret (-16) 0 :=
  (syscall_open_noent noentEnv zeroArgs 0 rfl).1

/-- C10: the error-kind identity table is injective — the eleven kinds carry
eleven pairwise-distinct identities — so failures with different kinds always
convert to different negative integers, and no error return collides with
another kind's encoding. -/
theorem sysErrorCode_injective_distinct :
    (∀ k k' : SysError, sysErrorCode k = sysErrorCode k' → k = k')
      ∧ sysErrorCode .Unspcified = 1 ∧ sysErrorCode .Inval = 3
      ∧ sysErrorCode .Nomem = 4 ∧ sysErrorCode .Io = 5
      ∧ sysErrorCode .Noent = 16 ∧ sysErrorCode .Isdir = 17
      ∧ sysErrorCode .Notdir = 18 ∧ sysErrorCode .Xdev = 19
      ∧ sysErrorCode .Unimp = 20 ∧ sysErrorCode .Exists = 23
      ∧ sysErrorCode .Notempty = 24
      ∧ (∀ k k' : SysError, k ≠ k' → -(sysErrorCode k) ≠ -(sysErrorCode k'))
      ∧ (∀ (k k' : SysError) (t : Unit), k ≠ k' →
          convertResult (Except.error k) t ≠ convertResult (Except.error k') t) := by
  refine ⟨by decide, rfl, rfl, rfl, rfl, rfl, rfl, rfl, rfl, rfl, rfl, rfl,
    by decide, ?_⟩
  decide

/-- Witness for C10: Inval and Nomem convert to distinct negative codes. -/
theorem sysErrorCode_injective_distinct_witness :
    -(sysErrorCode SysError.Inval) ≠ -(sysErrorCode SysError.Nomem) :=
  sysErrorCode_injective_distinct.2.2.2.2.2.2.2.2.2.2.2.2.1
    SysError.Inval SysError.Nomem (by decide)

end RCoreSyscall
